import Mathlib

/-
Verification development for the server-monitoring dashboard core.

The TypeScript sources are shallowly embedded as pure Lean functions:
  - timestamps are modelled as epoch milliseconds (Int);
  - JavaScript string operations (toLowerCase, includes) are modelled over
    ASCII text, which covers every pattern the code matches on;
  - asynchronous registry calls are modelled by passing the outcome of the
    call (success value or thrown error message) as an explicit
    Except-valued argument, mirroring the try/catch structure of the code;
  - Supabase/Firestore writes are modelled as values returned by the
    embedded functions (the inventory upsert payload, the correlation log
    entries appended), since the claims are about what is written, not
    about the database client.
-/

namespace Monitor

/-! ## String helpers (JavaScript toLowerCase / includes over ASCII) -/

/-- ASCII lower-casing of one character, as toLowerCase acts on the
letters appearing in the matched patterns. -/
def lowerChar (c : Char) : Char :=
  if 65 ≤ c.toNat ∧ c.toNat ≤ 90 then Char.ofNat (c.toNat + 32) else c

/-- Model of JavaScript String.prototype.toLowerCase restricted to ASCII. -/
def jsToLower (s : String) : String := String.mk (s.data.map lowerChar)

/-- Model of JavaScript s.includes(pat): pat occurs as a contiguous
substring of s. -/
def substrB (pat s : String) : Bool := decide (pat.toList <:+: s.toList)

/-! ## Data model -/

/-- Firebase exception log record (src/src/lib/firebase.ts, ExceptionLog).
Only the fields the correlator and scorers read are kept; createdAt is
modelled as epoch milliseconds. -/
structure ExceptionLog where
  id : String
  deviceImei : String
  main : String
  createdAtMs : Int
deriving DecidableEq

/-- Firebase ignition log record; only the creation time is read by the
health scorer. -/
structure IgnitionLog where
  id : String
  createdAtMs : Int
deriving DecidableEq

/-- Device record returned by the registry API (src/src/lib/api.ts).
DeviceDetails extends Device only with fields no claim reads, so one
structure stands for both. -/
structure Device where
  id : String
  imei : String
  name : Option String
  status : Option String
deriving DecidableEq

/-- DeviceDetails of api.ts; the extra fields (locations, config) are not
read by the embedded logic. -/
abbrev DeviceDetails := Device

/-- Result of APIService.getDeviceActivityStatus. The lastActivity
timestamp string is modelled as epoch milliseconds; none stands for the
null / empty value. -/
structure ActivityStatus where
  isActive : Bool
  lastActivityMs : Option Int
  locationCount : Nat
deriving DecidableEq

/-- Location sample (src/src/lib/api.ts LocationData); the geographic
fields are never read by the logic under verification, only the presence
of samples matters. -/
structure LocationData where
  id : String
  timestampMs : Int
deriving DecidableEq

/-! ## APIService cache (src/src/lib/api.ts)

The private cache maps string keys to entries holding data and a write
timestamp. Keys are disjoint per operation, so each operation is modelled
with its own typed entry. The outcome of the underlying network fetch is
passed explicitly as an Except value: `Except.error msg` models a thrown
request error. -/

/-- One cache slot: the stored data and the Date.now() value at storage. -/
structure CacheEntry (α : Type) where
  data : α
  timestamp : Int
deriving DecidableEq

/-- CACHE_DURATION = 5 * 60 * 1000 milliseconds. -/
def CACHE_DURATION : Int := 5 * 60 * 1000

/-- APIService.isCacheValid: an entry exists and its age is under the TTL. -/
def isCacheValid {α : Type} (now : Int) (cache : Option (CacheEntry α)) : Bool :=
  match cache with
  | none => false
  | some c => decide (now - c.timestamp < CACHE_DURATION)

/-- APIService.getCache: the stored data, if any. -/
def getCacheOpt {α : Type} (cache : Option (CacheEntry α)) : Option α :=
  cache.map CacheEntry.data

/-- Body of the /devices response. -/
structure DevicesResponse where
  success : Bool
  data : List Device
deriving DecidableEq

/-- APIService.getAllDevices: serve a valid cache entry; otherwise fetch,
store and return on success; on a thrown fetch error return the cached
data however stale, or the empty list when nothing was ever cached.
Returns the devices together with the cache slot after the call. -/
def getAllDevices (cache : Option (CacheEntry (List Device))) (now : Int)
    (fetch : Except String DevicesResponse) :
    List Device × Option (CacheEntry (List Device)) :=
  if isCacheValid now cache then
    ((getCacheOpt cache).getD [], cache)
  else
    match fetch with
    | Except.ok resp =>
      let devices := if resp.success then resp.data else []
      (devices, some ⟨devices, now⟩)
    | Except.error _ =>
      ((getCacheOpt cache).getD [], cache)

/-- APIService.getDeviceByImei: serve a valid cache entry; otherwise fetch,
store and return on success; on a thrown fetch error return null, without
consulting the (possibly stale) cache. -/
def getDeviceByImei (cache : Option (CacheEntry Device)) (now : Int)
    (fetch : Except String Device) :
    Option Device × Option (CacheEntry Device) :=
  if isCacheValid now cache then
    (getCacheOpt cache, cache)
  else
    match fetch with
    | Except.ok d => (some d, some ⟨d, now⟩)
    | Except.error _ => (none, cache)

/-- APIService.getDeviceLocations: serve a valid cache entry; otherwise
fetch, store and return on success; on a thrown fetch error return the
empty list, without consulting the (possibly stale) cache. -/
def getDeviceLocations (cache : Option (CacheEntry (List LocationData))) (now : Int)
    (fetch : Except String (List LocationData)) :
    List LocationData × Option (CacheEntry (List LocationData)) :=
  if isCacheValid now cache then
    ((getCacheOpt cache).getD [], cache)
  else
    match fetch with
    | Except.ok locs => (locs, some ⟨locs, now⟩)
    | Except.error _ => ([], cache)

/-! ## Severity classifiers -/

/-- CorrelationService.isCriticalException on the lower-cased main text:
contains server, critical, down or offline. -/
def isCriticalExceptionText (main : String) : Bool :=
  let m := jsToLower main
  substrB "server" m || substrB "critical" m || substrB "down" m ||
    substrB "offline" m

/-- CorrelationService.isCriticalException (src/unnamed/part_005). -/
def isCriticalException (exceptionLog : ExceptionLog) : Bool :=
  isCriticalExceptionText exceptionLog.main

/-- AnalyticsService.getSeverityFromExceptionType
(src/src/lib/analytics.ts): null or empty input is unknown; critical,
server down or offline gives critical; warning, degraded or retry gives
warning; anything else is info. -/
def getSeverityFromExceptionType (exceptionType : Option String) : String :=
  match exceptionType with
  | none => "unknown"
  | some s =>
    if s = "" then "unknown"
    else
      let t := jsToLower s
      if substrB "critical" t || substrB "server down" t || substrB "offline" t then
        "critical"
      else if substrB "warning" t || substrB "degraded" t || substrB "retry" t then
        "warning"
      else
        "info"

/-- Classification table as the specification words it, for comparison
with the classifiers of the source: critical, server down or offline is
critical; warning, retry or degraded is warning; anything else is info. -/
def specSeverityTable (text : String) : String :=
  let t := jsToLower text
  if substrB "critical" t || substrB "server down" t || substrB "offline" t then
    "critical"
  else if substrB "warning" t || substrB "retry" t || substrB "degraded" t then
    "warning"
  else
    "info"

/-! ## Correlation result and notes (src/unnamed/part_005) -/

/-- CorrelationService.determineCorrelationResult: no API data is no_data;
a main text containing both server and down is conflicted when the API
shows activity, confirmed otherwise; a main text containing device or
connection is confirmed when the API shows inactivity, conflicted
otherwise; any other text with data present is confirmed. -/
def determineCorrelationResult (exceptionLog : ExceptionLog)
    (deviceDetails : Option DeviceDetails) (activityStatus : ActivityStatus) :
    String :=
  match deviceDetails with
  | none => "no_data"
  | some _ =>
    let exceptionType := jsToLower exceptionLog.main
    if substrB "server" exceptionType && substrB "down" exceptionType then
      if activityStatus.isActive then "conflicted" else "confirmed"
    else if substrB "device" exceptionType || substrB "connection" exceptionType then
      if !activityStatus.isActive then "confirmed" else "conflicted"
    else
      "confirmed"

/-- JavaScript x || y fallback for an optional string: null or empty falls
back to the default. -/
def orElseStr (s : Option String) (dflt : String) : String :=
  match s with
  | none => dflt
  | some v => if v = "" then dflt else v

/-- CorrelationService.generateCorrelationNotes. Math.round of the minute
difference is floor after adding half a minute, exact for integral
milliseconds. -/
def generateCorrelationNotes (nowMs : Int) (exceptionLog : ExceptionLog)
    (deviceDetails : Option DeviceDetails) (activityStatus : ActivityStatus) :
    String :=
  let head := "Firebase Exception: " ++ orElseStr (some exceptionLog.main) "Unknown"
  match deviceDetails with
  | some d =>
    let l1 := "API Device Status: " ++ orElseStr d.status "Unknown"
    let l2 := "API Activity: " ++ (if activityStatus.isActive then "Active" else "Inactive")
    let l3 := "Recent Locations: " ++ toString activityStatus.locationCount
    let tail :=
      match activityStatus.lastActivityMs with
      | some t =>
        ["Last Activity: " ++ toString ((nowMs - t + 30000).fdiv 60000) ++ " minutes ago"]
      | none => []
    String.intercalate " | " ([head, l1, l2, l3] ++ tail)
  | none =>
    String.intercalate " | " [head, "API: Device not found or API unavailable"]

/-! ## Health scorers -/

namespace CorrelationService

/-- CorrelationService.calculateHealthScore (src/unnamed/part_005): start
at 100, subtract 50 when inactive, subtract 30 for zero location samples
or 15 for fewer than three, floor at 0. The source applies no upper clamp
here. -/
def calculateHealthScore (isActive : Bool) (locationCount : Nat) : Int :=
  let score : Int := 100
  let score := if !isActive then score - 50 else score
  let score :=
    if locationCount = 0 then score - 30
    else if locationCount < 3 then score - 15
    else score
  max 0 score

end CorrelationService

namespace DeviceOverviewTab

/-- calculateHealthScore of src/src/components/DeviceOverviewTab.tsx:
100, minus 20 per critical exception (main exactly server down, or
containing critical), minus 5 per warning (main containing retry or
warning), minus 10 per exception created within the last hour, plus 5
when the newest ignition log is under 24 hours old, clamped to [0, 100]. -/
def calculateHealthScore (nowMs : Int) (exceptionLogs : List ExceptionLog)
    (ignitionLogs : List IgnitionLog) : Int :=
  let score : Int := 100
  let criticalExceptions :=
    (exceptionLogs.filter (fun log =>
      let mainText := jsToLower log.main
      mainText == "server down" || substrB "critical" mainText)).length
  let score := score - criticalExceptions * 20
  let warnings :=
    (exceptionLogs.filter (fun log =>
      let mainText := jsToLower log.main
      substrB "retry" mainText || substrB "warning" mainText)).length
  let score := score - warnings * 5
  let recentExceptions :=
    (exceptionLogs.filter (fun log =>
      decide (log.createdAtMs > nowMs - 3600000))).length
  let score := score - recentExceptions * 10
  let score :=
    match ignitionLogs with
    | [] => score
    | lastIgnition :: _ =>
      if nowMs - lastIgnition.createdAtMs < 86400000 then score + 5 else score
  max 0 (min 100 score)

/-- Number of critical-classified logs, with the critical predicate of
calculateHealthScore. -/
def criticalCount (exceptionLogs : List ExceptionLog) : Nat :=
  (exceptionLogs.filter (fun log =>
    let mainText := jsToLower log.main
    mainText == "server down" || substrB "critical" mainText)).length

/-- Number of warning-classified logs, with the warning predicate of
calculateHealthScore. -/
def warningCount (exceptionLogs : List ExceptionLog) : Nat :=
  (exceptionLogs.filter (fun log =>
    let mainText := jsToLower log.main
    substrB "retry" mainText || substrB "warning" mainText)).length

/-- Number of logs created within the last rolling hour. -/
def recentCount (nowMs : Int) (exceptionLogs : List ExceptionLog) : Nat :=
  (exceptionLogs.filter (fun log =>
    decide (log.createdAtMs > nowMs - 3600000))).length

/-- The newest ignition log exists and is under 24 hours old. -/
def hasRecentIgnitionActivity (nowMs : Int) (ignitionLogs : List IgnitionLog) : Bool :=
  match ignitionLogs with
  | [] => false
  | lastIgnition :: _ => decide (nowMs - lastIgnition.createdAtMs < 86400000)

/-- The scoring arithmetic as a pure function of the four inputs the
specification names. -/
def scoreFromCounts (critical warning recent : Nat) (recentIgnition : Bool) : Int :=
  max 0 (min 100
    (100 - 20 * (critical : Int) - 5 * (warning : Int) - 10 * (recent : Int) +
      (if recentIgnition then 5 else 0)))

end DeviceOverviewTab

/-! ## Event-driven correlator (CorrelationService, src/unnamed/part_005)

The apiResponse variable of correlateExceptionEventDriven holds, at the
point where the correlation log entry is built, one of: null (initial
value, never reached once a branch runs), the device-and-activity payload,
an object with an error field, or the cached-status marker object. The
api_status written to the log is computed from it exactly as in the
source: an error field gives error, any other non-null value gives
success, null gives no_data. -/

/-- Shape of the apiResponse value at logging time. -/
inductive ApiResponse where
  | jsNull : ApiResponse
  | payload (device : Option DeviceDetails) (activity : ActivityStatus) : ApiResponse
  | errorField (message : String) : ApiResponse
  | cachedStatus (status : String) : ApiResponse
deriving DecidableEq

/-- Truthiness of the error field of apiResponse. -/
def ApiResponse.hasErrorField : ApiResponse → Bool
  | ApiResponse.errorField _ => true
  | _ => false

/-- Truthiness of apiResponse itself. -/
def ApiResponse.isTruthy : ApiResponse → Bool
  | ApiResponse.jsNull => false
  | _ => true

/-- One row inserted into api_correlation_logs. -/
structure CorrelationEntry where
  imei : String
  correlation_type : String
  firebase_exception_id : Option String
  api_response : ApiResponse
  api_status : String
  correlation_result : String
  notes : String
deriving DecidableEq

/-- Payload of CorrelationService.updateDeviceWithFirebaseData, the
stream-side inventory upsert performed after every correlation. -/
structure FirebaseInventoryUpdate where
  imei : String
  is_active_firebase : Bool
  last_exception_type : String
deriving DecidableEq

/-- Outcome of the two registry calls the correlator may make, passed in
explicitly: Except.error models a thrown call. getDeviceByImei runs
first; when it throws, the activity call never runs. -/
structure ApiBehavior where
  deviceDetail : Except String (Option DeviceDetails)
  activity : Except String ActivityStatus

/-- Values produced by one branch of the correlator before logging. -/
structure BranchResult where
  apiResponse : ApiResponse
  correlationResult : String
  notes : String
  apiCalls : Nat
  knownAfter : List String
  inventoryUpserted : Bool

/-- Observable effects of one run of correlateExceptionEventDriven:
correlation log rows appended, number of registry consultations made
(one consultation bundles the paired device-detail and activity fetches
the source always issues together), the known-IMEI set afterwards,
whether the API-side inventory upsert ran, and the stream-side inventory
upsert payload. -/
structure CorrelateOutcome where
  logs : List CorrelationEntry
  apiCalls : Nat
  knownIMEIs : List String
  inventoryUpserted : Bool
  firebaseUpdate : Option FirebaseInventoryUpdate

/-- CorrelationService.updateDeviceWithFirebaseData: marks the device
inactive on the stream side and records the exception main text, blank
main falling back to Unknown. -/
def updateDeviceWithFirebaseData (imei : String) (exceptionLog : ExceptionLog) :
    FirebaseInventoryUpdate :=
  { imei := imei
    is_active_firebase := false
    last_exception_type := orElseStr (some exceptionLog.main) "Unknown" }

/-- CorrelationService.correlateExceptionEventDriven. A blank deviceImei
is skipped with no side effects. Unknown devices always trigger one
registry consultation; known devices trigger one only when
isCriticalException holds, and otherwise the call is skipped with the
cached-status marker. Thrown registry calls are caught in-branch and
produce an error-status, no_data entry. Exactly one log entry is
appended, and the stream-side inventory update always runs. Totality of
this function models the outer try/catch: no exception escapes. -/
def correlateExceptionEventDriven (nowMs : Int) (known : List String)
    (api : ApiBehavior) (exceptionLog : ExceptionLog) : CorrelateOutcome :=
  if exceptionLog.deviceImei = "" then
    { logs := [], apiCalls := 0, knownIMEIs := known
      inventoryUpserted := false, firebaseUpdate := none }
  else
    let isKnown := known.contains exceptionLog.deviceImei
    let branch : BranchResult :=
      if !isKnown then
        match api.deviceDetail with
        | Except.error msg =>
          { apiResponse := ApiResponse.errorField msg
            correlationResult := "no_data"
            notes := "New IMEI discovered - API call failed: " ++ msg
            apiCalls := 1, knownAfter := known, inventoryUpserted := false }
        | Except.ok deviceDetails =>
          match api.activity with
          | Except.error msg =>
            { apiResponse := ApiResponse.errorField msg
              correlationResult := "no_data"
              notes := "New IMEI discovered - API call failed: " ++ msg
              apiCalls := 1, knownAfter := known, inventoryUpserted := false }
          | Except.ok activityStatus =>
            { apiResponse := ApiResponse.payload deviceDetails activityStatus
              correlationResult := if deviceDetails.isSome then "confirmed" else "no_data"
              notes :=
                if deviceDetails.isSome then
                  "New IMEI discovered - device found in API and added to inventory"
                else
                  "New IMEI discovered - device not found in API"
              apiCalls := 1
              knownAfter :=
                if deviceDetails.isSome then exceptionLog.deviceImei :: known else known
              inventoryUpserted := deviceDetails.isSome }
      else if isCriticalException exceptionLog then
        match api.deviceDetail with
        | Except.error msg =>
          { apiResponse := ApiResponse.errorField msg
            correlationResult := "no_data"
            notes := "Critical exception for known IMEI - API call failed: " ++ msg
            apiCalls := 1, knownAfter := known, inventoryUpserted := false }
        | Except.ok deviceDetails =>
          match api.activity with
          | Except.error msg =>
            { apiResponse := ApiResponse.errorField msg
              correlationResult := "no_data"
              notes := "Critical exception for known IMEI - API call failed: " ++ msg
              apiCalls := 1, knownAfter := known, inventoryUpserted := false }
          | Except.ok activityStatus =>
            { apiResponse := ApiResponse.payload deviceDetails activityStatus
              correlationResult :=
                determineCorrelationResult exceptionLog deviceDetails activityStatus
              notes := generateCorrelationNotes nowMs exceptionLog deviceDetails activityStatus
              apiCalls := 1, knownAfter := known, inventoryUpserted := false }
      else
        { apiResponse := ApiResponse.cachedStatus "known_imei_non_critical"
          correlationResult := "confirmed"
          notes := "Non-critical exception for known IMEI - no API call made (event-driven optimization)"
          apiCalls := 0, knownAfter := known, inventoryUpserted := false }
    { logs :=
        [{ imei := exceptionLog.deviceImei
           correlation_type := "exception_triggered"
           firebase_exception_id := some exceptionLog.id
           api_response := branch.apiResponse
           api_status :=
             if branch.apiResponse.hasErrorField then "error"
             else if branch.apiResponse.isTruthy then "success"
             else "no_data"
           correlation_result := branch.correlationResult
           notes := branch.notes }]
      apiCalls := branch.apiCalls
      knownIMEIs := branch.knownAfter
      inventoryUpserted := branch.inventoryUpserted
      firebaseUpdate := some (updateDeviceWithFirebaseData exceptionLog.deviceImei exceptionLog) }

/-! ## Snapshot handling (FirebaseService.subscribeToExceptionLogs,
src/src/lib/firebase.ts) -/

/-- One document of a delivered snapshot, with the two metadata flags the
handler inspects. -/
structure SnapshotDoc where
  id : String
  deviceImei : String
  main : String
  createdAtMs : Int
  hasPendingWrites : Bool
  fromCache : Bool
deriving DecidableEq

/-- Mapping a snapshot document to the exception log passed onward. -/
def docToLog (d : SnapshotDoc) : ExceptionLog :=
  { id := d.id, deviceImei := d.deviceImei, main := d.main, createdAtMs := d.createdAtMs }

/-- The logs a single snapshot delivery hands to the correlator: every
document with no pending writes and not served from cache. The handler
keeps no record of previously processed document ids. -/
def newLogsOfSnapshot (snapshot : List SnapshotDoc) : List ExceptionLog :=
  (snapshot.filter (fun d => !d.hasPendingWrites && d.fromCache == false)).map docToLog

/-- Correlation triggers produced by a sequence of snapshot deliveries,
in delivery order. -/
def correlationTriggers (deliveries : List (List SnapshotDoc)) : List ExceptionLog :=
  match deliveries with
  | [] => []
  | s :: rest => newLogsOfSnapshot s ++ correlationTriggers rest

/-! ## Helper lemmas -/

/-- Substring containment is transitive. -/
lemma substrB_trans {p q s : String} (h1 : substrB p q = true)
    (h2 : substrB q s = true) : substrB p s = true := by
  apply decide_eq_true
  exact List.IsInfix.trans (of_decide_eq_true h1) (of_decide_eq_true h2)

/-- A string occurs as a substring of anything it is appended to. -/
lemma substrB_str_append (pre msg : String) : substrB msg (pre ++ msg) = true := by
  apply decide_eq_true
  refine ⟨pre.toList, [], ?_⟩
  show pre.toList ++ msg.toList ++ [] = (pre ++ msg).toList
  simp [String.toList]

/-! ## Claim theorems -/

/-- C5: the primary health scorer is the pure function of
(criticalCount, warningCount, recentCount, hasRecentIgnition) computing
100 minus 20 per critical, 5 per warning and 10 per recent exception,
plus 5 on recent ignition, clamped to [0, 100]; in particular it maps
(2, 1, 1, true) to 50. -/
theorem claim_C5 (nowMs : Int) (exceptionLogs : List ExceptionLog)
    (ignitionLogs : List IgnitionLog) :
    DeviceOverviewTab.calculateHealthScore nowMs exceptionLogs ignitionLogs =
      DeviceOverviewTab.scoreFromCounts
        (DeviceOverviewTab.criticalCount exceptionLogs)
        (DeviceOverviewTab.warningCount exceptionLogs)
        (DeviceOverviewTab.recentCount nowMs exceptionLogs)
        (DeviceOverviewTab.hasRecentIgnitionActivity nowMs ignitionLogs) ∧
    DeviceOverviewTab.scoreFromCounts 2 1 1 true = 50 := by
  constructor
  · simp only [DeviceOverviewTab.calculateHealthScore,
      DeviceOverviewTab.scoreFromCounts, DeviceOverviewTab.criticalCount,
      DeviceOverviewTab.warningCount, DeviceOverviewTab.recentCount,
      DeviceOverviewTab.hasRecentIgnitionActivity]
    cases ignitionLogs with
    | nil =>
      simp only [Bool.false_eq_true, if_false]
      congr 1
      congr 1
      ring
    | cons lastIgnition rest =>
      by_cases h : nowMs - lastIgnition.createdAtMs < 86400000
      · simp only [h, decide_eq_true h, if_true, if_pos, decide_eq_true_eq]
        congr 1
        congr 1
        ring
      · simp only [decide_eq_false h, Bool.false_eq_true, if_false, if_neg h]
        congr 1
        congr 1
        ring
  · decide

/-- C6: both health-scorer variants return values within [0, 100] for
every input combination. -/
theorem claim_C6 (nowMs : Int) (exceptionLogs : List ExceptionLog)
    (ignitionLogs : List IgnitionLog) (isActive : Bool) (locationCount : Nat) :
    (0 ≤ DeviceOverviewTab.calculateHealthScore nowMs exceptionLogs ignitionLogs ∧
     DeviceOverviewTab.calculateHealthScore nowMs exceptionLogs ignitionLogs ≤ 100) ∧
    (0 ≤ CorrelationService.calculateHealthScore isActive locationCount ∧
     CorrelationService.calculateHealthScore isActive locationCount ≤ 100) := by
  refine ⟨⟨?_, ?_⟩, ?_, ?_⟩
  · simp only [DeviceOverviewTab.calculateHealthScore]
    exact le_max_left 0 _
  · simp only [DeviceOverviewTab.calculateHealthScore]
    exact max_le (by norm_num) (min_le_left 100 _)
  · simp only [CorrelationService.calculateHealthScore]
    exact le_max_left 0 _
  · simp only [CorrelationService.calculateHealthScore]
    split_ifs <;> norm_num

/-- C10: the API-activity health-score variant never returns a value
below 20, and attains exactly 20 on an inactive device with zero
location samples. -/
theorem claim_C10 (isActive : Bool) (locationCount : Nat) :
    20 ≤ CorrelationService.calculateHealthScore isActive locationCount ∧
    CorrelationService.calculateHealthScore false 0 = 20 := by
  constructor
  · simp only [CorrelationService.calculateHealthScore]
    split_ifs <;> norm_num
  · decide

/-- C3: with API data present, a main text containing server and down
yields conflicted exactly when the API observes activity and confirmed
otherwise; a main text containing device or connection behaves the same
way (inactive corroborates, active conflicts); with no API data the
result is no_data. -/
theorem claim_C3 (exceptionLog : ExceptionLog) (d : DeviceDetails)
    (activityStatus : ActivityStatus) :
    (substrB "server" (jsToLower exceptionLog.main) = true →
      substrB "down" (jsToLower exceptionLog.main) = true →
      determineCorrelationResult exceptionLog (some d) activityStatus =
        if activityStatus.isActive then "conflicted" else "confirmed") ∧
    ((substrB "device" (jsToLower exceptionLog.main) = true ∨
      substrB "connection" (jsToLower exceptionLog.main) = true) →
      determineCorrelationResult exceptionLog (some d) activityStatus =
        if activityStatus.isActive then "conflicted" else "confirmed") ∧
    determineCorrelationResult exceptionLog none activityStatus = "no_data" := by
  refine ⟨?_, ?_, rfl⟩
  · intro hs hd
    simp only [determineCorrelationResult, hs, hd, Bool.and_self]
    cases activityStatus.isActive <;> simp
  · intro h
    have hor : (substrB "device" (jsToLower exceptionLog.main) ||
        substrB "connection" (jsToLower exceptionLog.main)) = true := by
      rcases h with h | h <;> simp [h]
    simp only [determineCorrelationResult, hor]
    by_cases hsd : (substrB "server" (jsToLower exceptionLog.main) &&
        substrB "down" (jsToLower exceptionLog.main)) = true
    · simp only [hsd]
      cases activityStatus.isActive <;> simp
    · simp only [Bool.not_eq_true] at hsd
      simp only [hsd]
      cases activityStatus.isActive <;> simp

/-- C3 witness: a known device with category server down and an API
showing activity is classified conflicted. -/
theorem claim_C3_witness :
    determineCorrelationResult ⟨"e3", "Z", "server down", 0⟩
      (some ⟨"1", "Z", none, none⟩) ⟨true, none, 5⟩ = "conflicted" :=
  (claim_C3 ⟨"e3", "Z", "server down", 0⟩ ⟨"1", "Z", none, none⟩
    ⟨true, none, 5⟩).1 (by decide) (by decide)

/-- C4 (amended): the analytics severity function implements the
critical / warning / info table for non-empty text and returns unknown on
null or empty input; the correlator gate is critical on every text the
table classifies critical, but the two classifiers are not the same
function (the gate also fires on server, down alone; see the
counterexample). -/
theorem claim_C4 :
    (∀ s : String, s ≠ "" →
      getSeverityFromExceptionType (some s) = specSeverityTable s) ∧
    getSeverityFromExceptionType none = "unknown" ∧
    getSeverityFromExceptionType (some "") = "unknown" ∧
    (∀ s : String, specSeverityTable s = "critical" →
      isCriticalExceptionText s = true) := by
  refine ⟨?_, rfl, rfl, ?_⟩
  · intro s hs
    simp only [getSeverityFromExceptionType, specSeverityTable, if_neg hs]
    have hw : (substrB "warning" (jsToLower s) || substrB "degraded" (jsToLower s) ||
        substrB "retry" (jsToLower s)) =
        (substrB "warning" (jsToLower s) || substrB "retry" (jsToLower s) ||
          substrB "degraded" (jsToLower s)) := by
      cases substrB "degraded" (jsToLower s) <;> cases substrB "retry" (jsToLower s) <;> simp
    rw [hw]
  · intro s h
    simp only [specSeverityTable] at h
    split_ifs at h with hA hB
    · simp only [Bool.or_eq_true] at hA
      simp only [isCriticalExceptionText, Bool.or_eq_true]
      rcases hA with (hc | hsd) | ho
      · exact Or.inl (Or.inl (Or.inr hc))
      · exact Or.inl (Or.inr (substrB_trans (by decide) hsd))
      · exact Or.inr ho
    · exact absurd h (by decide)
    · exact absurd h (by decide)

/-- C4 witness: on a non-empty text the analytics function matches the
table, and a table-critical text fires the correlator gate. -/
theorem claim_C4_witness :
    getSeverityFromExceptionType (some "Server Down") = specSeverityTable "Server Down" ∧
    isCriticalExceptionText "offline" = true :=
  ⟨claim_C4.1 "Server Down" (by decide), claim_C4.2.2.2 "offline" (by decide)⟩

/-- C4 counterexample: on the text down the correlator gate classifies
critical while the analytics severity function and the specification
table classify info, so the classifiers do not implement the same table
and disagree on this input. -/
theorem claim_C4_counterexample :
    isCriticalException ⟨"e4", "X", "down", 0⟩ = true ∧
    getSeverityFromExceptionType (some "down") = "info" ∧
    specSeverityTable "down" = "info" :=
  ⟨by decide, by decide, by decide⟩

/-- C1 (amended): a non-empty, known, non-critical event makes zero
registry calls, leaves the known set unchanged, logs result confirmed
with apiStatus success (the source has no no_call status; the skipped
call is marked by the cached-status snapshot), and the stream-side
inventory update still records the event category. -/
theorem claim_C1 (nowMs : Int) (known : List String) (api : ApiBehavior)
    (exceptionLog : ExceptionLog)
    (h1 : exceptionLog.deviceImei ≠ "")
    (h2 : known.contains exceptionLog.deviceImei = true)
    (h3 : isCriticalException exceptionLog = false) :
    (correlateExceptionEventDriven nowMs known api exceptionLog).apiCalls = 0 ∧
    (correlateExceptionEventDriven nowMs known api exceptionLog).logs.map
      (fun e => (e.api_status, e.correlation_result)) = [("success", "confirmed")] ∧
    (correlateExceptionEventDriven nowMs known api exceptionLog).knownIMEIs = known ∧
    (exceptionLog.main ≠ "" →
      (correlateExceptionEventDriven nowMs known api exceptionLog).firebaseUpdate =
        some { imei := exceptionLog.deviceImei, is_active_firebase := false,
               last_exception_type := exceptionLog.main }) := by
  have hmem : exceptionLog.deviceImei ∈ known := by simpa using h2
  refine ⟨?_, ?_, ?_, ?_⟩
  · simp [correlateExceptionEventDriven, h1, hmem, h3]
  · simp [correlateExceptionEventDriven, h1, hmem, h3,
      ApiResponse.hasErrorField, ApiResponse.isTruthy]
  · simp [correlateExceptionEventDriven, h1, hmem, h3]
  · intro hm
    simp [correlateExceptionEventDriven, h1, hmem, h3,
      updateDeviceWithFirebaseData, orElseStr, hm]

/-- C1 witness: device Y known, category GPS retry: zero calls, entry is
success and confirmed, inventory category updated. -/
theorem claim_C1_witness :
    (correlateExceptionEventDriven 0 ["Y"]
        ⟨Except.ok none, Except.ok ⟨false, none, 0⟩⟩
        ⟨"e1", "Y", "GPS retry", 0⟩).apiCalls = 0 ∧
    (correlateExceptionEventDriven 0 ["Y"]
        ⟨Except.ok none, Except.ok ⟨false, none, 0⟩⟩
        ⟨"e1", "Y", "GPS retry", 0⟩).logs.map
      (fun e => (e.api_status, e.correlation_result)) = [("success", "confirmed")] ∧
    (correlateExceptionEventDriven 0 ["Y"]
        ⟨Except.ok none, Except.ok ⟨false, none, 0⟩⟩
        ⟨"e1", "Y", "GPS retry", 0⟩).firebaseUpdate =
      some { imei := "Y", is_active_firebase := false,
             last_exception_type := "GPS retry" } :=
  have h := claim_C1 0 ["Y"] ⟨Except.ok none, Except.ok ⟨false, none, 0⟩⟩
    ⟨"e1", "Y", "GPS retry", 0⟩ (by decide) (by decide) (by decide)
  ⟨h.1, h.2.1, h.2.2.2 (by decide)⟩

/-- C1 counterexample: on the known, non-critical event the written
apiStatus is success, not the no_call value the claim states. -/
theorem claim_C1_counterexample :
    (correlateExceptionEventDriven 0 ["Y"]
        ⟨Except.ok none, Except.ok ⟨false, none, 0⟩⟩
        ⟨"e1", "Y", "GPS retry", 0⟩).logs.map CorrelationEntry.api_status
      = ["success"] ∧ ("success" : String) ≠ "no_call" :=
  ⟨by decide, by decide⟩

/-- C2: a non-empty event for an unknown device always makes exactly one
registry consultation; when the registry returns a record the logged
result is confirmed and the device enters the known set; when it returns
nothing or a call throws the logged result is no_data. -/
theorem claim_C2 (nowMs : Int) (known : List String) (api : ApiBehavior)
    (exceptionLog : ExceptionLog)
    (h1 : exceptionLog.deviceImei ≠ "")
    (h2 : known.contains exceptionLog.deviceImei = false) :
    (correlateExceptionEventDriven nowMs known api exceptionLog).apiCalls = 1 ∧
    (∀ d act, api.deviceDetail = Except.ok (some d) → api.activity = Except.ok act →
      (correlateExceptionEventDriven nowMs known api exceptionLog).logs.map
        (fun e => e.correlation_result) = ["confirmed"] ∧
      (correlateExceptionEventDriven nowMs known api exceptionLog).knownIMEIs.contains
        exceptionLog.deviceImei = true) ∧
    (∀ act, api.deviceDetail = Except.ok none → api.activity = Except.ok act →
      (correlateExceptionEventDriven nowMs known api exceptionLog).logs.map
        (fun e => e.correlation_result) = ["no_data"]) ∧
    (∀ msg, api.deviceDetail = Except.error msg →
      (correlateExceptionEventDriven nowMs known api exceptionLog).logs.map
        (fun e => e.correlation_result) = ["no_data"]) ∧
    (∀ msg, api.activity = Except.error msg →
      (correlateExceptionEventDriven nowMs known api exceptionLog).logs.map
        (fun e => e.correlation_result) = ["no_data"]) := by
  have hmem : exceptionLog.deviceImei ∉ known := by
    simpa using h2
  obtain ⟨dd, act⟩ := api
  refine ⟨?_, ?_, ?_, ?_, ?_⟩
  · cases dd with
    | error msg => simp [correlateExceptionEventDriven, h1, hmem]
    | ok d =>
      cases act with
      | error msg => simp [correlateExceptionEventDriven, h1, hmem]
      | ok a => simp [correlateExceptionEventDriven, h1, hmem]
  · intro d a hdd hact
    simp only at hdd hact
    subst hdd; subst hact
    constructor
    · simp [correlateExceptionEventDriven, h1, hmem]
    · simp [correlateExceptionEventDriven, h1, hmem]
  · intro a hdd hact
    simp only at hdd hact
    subst hdd; subst hact
    simp [correlateExceptionEventDriven, h1, hmem]
  · intro msg hdd
    simp only at hdd
    subst hdd
    simp [correlateExceptionEventDriven, h1, hmem]
  · intro msg hact
    simp only at hact
    subst hact
    cases dd with
    | error m2 => simp [correlateExceptionEventDriven, h1, hmem]
    | ok d => simp [correlateExceptionEventDriven, h1, hmem]

/-- C2 witness: unknown device X with category Server Down and a
successful registry response: one call, result confirmed, X added to the
known set. -/
theorem claim_C2_witness :
    (correlateExceptionEventDriven 0 []
        ⟨Except.ok (some ⟨"1", "X", none, none⟩), Except.ok ⟨true, none, 5⟩⟩
        ⟨"e2", "X", "Server Down", 0⟩).apiCalls = 1 ∧
    (correlateExceptionEventDriven 0 []
        ⟨Except.ok (some ⟨"1", "X", none, none⟩), Except.ok ⟨true, none, 5⟩⟩
        ⟨"e2", "X", "Server Down", 0⟩).logs.map
      (fun e => e.correlation_result) = ["confirmed"] ∧
    (correlateExceptionEventDriven 0 []
        ⟨Except.ok (some ⟨"1", "X", none, none⟩), Except.ok ⟨true, none, 5⟩⟩
        ⟨"e2", "X", "Server Down", 0⟩).knownIMEIs.contains "X" = true :=
  have h := claim_C2 0 []
    ⟨Except.ok (some ⟨"1", "X", none, none⟩), Except.ok ⟨true, none, 5⟩⟩
    ⟨"e2", "X", "Server Down", 0⟩ (by decide) (by decide)
  ⟨h.1, (h.2.1 ⟨"1", "X", none, none⟩ ⟨true, none, 5⟩ rfl rfl).1,
    (h.2.1 ⟨"1", "X", none, none⟩ ⟨true, none, 5⟩ rfl rfl).2⟩

/-- C8: when the registry call throws during a correlation that consults
the registry (unknown device, or known with critical event), the error is
absorbed: one log entry is still written with apiStatus error and result
no_data, the thrown message appears in its notes, the stream-side
inventory update still runs, and the correlator (a total function here,
modelling the enclosing try/catch) returns normally. -/
theorem claim_C8 (nowMs : Int) (known : List String) (api : ApiBehavior)
    (exceptionLog : ExceptionLog) (msg : String)
    (h1 : exceptionLog.deviceImei ≠ "")
    (h2 : known.contains exceptionLog.deviceImei = false ∨
      isCriticalException exceptionLog = true)
    (h3 : api.deviceDetail = Except.error msg) :
    (correlateExceptionEventDriven nowMs known api exceptionLog).apiCalls = 1 ∧
    (correlateExceptionEventDriven nowMs known api exceptionLog).logs.map
      (fun e => (e.api_status, e.correlation_result)) = [("error", "no_data")] ∧
    (∀ e ∈ (correlateExceptionEventDriven nowMs known api exceptionLog).logs,
      substrB msg e.notes = true) ∧
    ((correlateExceptionEventDriven nowMs known api exceptionLog).firebaseUpdate).isSome
      = true := by
  obtain ⟨dd, act⟩ := api
  simp only at h3
  subst h3
  by_cases hk : exceptionLog.deviceImei ∈ known
  · have hcrit : isCriticalException exceptionLog = true := by
      rcases h2 with h | h
      · exact absurd hk (by simpa using h)
      · exact h
    refine ⟨?_, ?_, ?_, ?_⟩
    · simp [correlateExceptionEventDriven, h1, hk, hcrit]
    · simp [correlateExceptionEventDriven, h1, hk, hcrit,
        ApiResponse.hasErrorField, ApiResponse.isTruthy]
    · intro e he
      simp [correlateExceptionEventDriven, h1, hk, hcrit] at he
      subst he
      exact substrB_str_append "Critical exception for known IMEI - API call failed: " msg
    · simp [correlateExceptionEventDriven, h1, hk, hcrit]
  · refine ⟨?_, ?_, ?_, ?_⟩
    · simp [correlateExceptionEventDriven, h1, hk]
    · simp [correlateExceptionEventDriven, h1, hk,
        ApiResponse.hasErrorField, ApiResponse.isTruthy]
    · intro e he
      simp [correlateExceptionEventDriven, h1, hk] at he
      subst he
      exact substrB_str_append "New IMEI discovered - API call failed: " msg
    · simp [correlateExceptionEventDriven, h1, hk]

/-- C8 witness: a thrown timeout on a known device with a critical event
still yields one written entry with apiStatus error and result no_data. -/
theorem claim_C8_witness :
    (correlateExceptionEventDriven 0 ["Z"]
        ⟨Except.error "timeout", Except.ok ⟨true, none, 5⟩⟩
        ⟨"e8", "Z", "server down", 0⟩).apiCalls = 1 ∧
    (correlateExceptionEventDriven 0 ["Z"]
        ⟨Except.error "timeout", Except.ok ⟨true, none, 5⟩⟩
        ⟨"e8", "Z", "server down", 0⟩).logs.map
      (fun e => (e.api_status, e.correlation_result)) = [("error", "no_data")] ∧
    ((correlateExceptionEventDriven 0 ["Z"]
        ⟨Except.error "timeout", Except.ok ⟨true, none, 5⟩⟩
        ⟨"e8", "Z", "server down", 0⟩).firebaseUpdate).isSome = true :=
  have h := claim_C8 0 ["Z"] ⟨Except.error "timeout", Except.ok ⟨true, none, 5⟩⟩
    ⟨"e8", "Z", "server down", 0⟩ "timeout" (by decide) (Or.inr (by decide)) rfl
  ⟨h.1, h.2.1, h.2.2.2⟩

/-- C7 (amended): every get-operation serves the cache inside the TTL and
never throws; on a thrown fetch the full-list operation returns the last
cached value however stale (or empty when none), while per-device detail
returns null and per-device locations return the empty list once the TTL
has passed, even when a stale entry exists. -/
theorem claim_C7 (now : Int)
    (cacheL : Option (CacheEntry (List Device)))
    (cacheD : Option (CacheEntry Device))
    (cacheLoc : Option (CacheEntry (List LocationData)))
    (msgL msgD msgLoc : String) :
    ((isCacheValid now cacheL = true →
        ∀ f, (getAllDevices cacheL now f).1 = (getCacheOpt cacheL).getD []) ∧
      (getAllDevices cacheL now (Except.error msgL)).1 = (getCacheOpt cacheL).getD []) ∧
    ((isCacheValid now cacheD = true →
        ∀ f, (getDeviceByImei cacheD now f).1 = getCacheOpt cacheD) ∧
      (isCacheValid now cacheD = false →
        (getDeviceByImei cacheD now (Except.error msgD)).1 = none)) ∧
    ((isCacheValid now cacheLoc = true →
        ∀ f, (getDeviceLocations cacheLoc now f).1 = (getCacheOpt cacheLoc).getD []) ∧
      (isCacheValid now cacheLoc = false →
        (getDeviceLocations cacheLoc now (Except.error msgLoc)).1 = [])) := by
  refine ⟨⟨?_, ?_⟩, ⟨?_, ?_⟩, ⟨?_, ?_⟩⟩
  · intro h f
    simp [getAllDevices, h]
  · by_cases hv : isCacheValid now cacheL = true <;> simp [getAllDevices, hv]
  · intro h f
    simp [getDeviceByImei, h]
  · intro h
    simp [getDeviceByImei, h]
  · intro h f
    simp [getDeviceLocations, h]
  · intro h
    simp [getDeviceLocations, h]

/-- C7 witness: with a five-minute-old entry and a failing fetch, the
full-list operation serves the stale cache while the per-device detail
operation returns null. -/
theorem claim_C7_witness :
    (getAllDevices (some ⟨[⟨"1", "X", none, none⟩], 0⟩) 300000
        (Except.error "net down")).1
      = (getCacheOpt (some (⟨[⟨"1", "X", none, none⟩], 0⟩ :
          CacheEntry (List Device)))).getD [] ∧
    (getDeviceByImei (some ⟨⟨"1", "X", none, none⟩, 0⟩) 300000
        (Except.error "net down")).1 = none :=
  have h := claim_C7 300000 (some ⟨[⟨"1", "X", none, none⟩], 0⟩)
    (some ⟨⟨"1", "X", none, none⟩, 0⟩) none "net down" "net down" "x"
  ⟨h.1.2, h.2.1.2 (by decide)⟩

/-- C7 counterexample: a stale cached value exists for the per-device
detail and location operations, the fetch fails, and yet null and the
empty list are returned instead of the cached values the claim
promises. -/
theorem claim_C7_counterexample :
    (getDeviceByImei (some ⟨⟨"1", "X", none, none⟩, 0⟩) 300000
        (Except.error "network timeout")).1 = none ∧
    getCacheOpt (some (⟨⟨"1", "X", none, none⟩, 0⟩ : CacheEntry Device)) =
      some ⟨"1", "X", none, none⟩ ∧
    (getDeviceLocations (some ⟨[⟨"l1", 5⟩], 0⟩) 300000
        (Except.error "network timeout")).1 = [] ∧
    getCacheOpt (some (⟨[⟨"l1", 5⟩], 0⟩ : CacheEntry (List LocationData))) =
      some [⟨"l1", 5⟩] :=
  ⟨by decide, by decide, by decide, by decide⟩

/-- C9 (amended): a snapshot delivery triggers correlation for exactly
its server-confirmed documents (no pending writes, not from cache), and
triggers accumulate across deliveries with no event-id dedupe: the
number of triggers carrying a given event id over concatenated delivery
sequences is the sum over the parts. -/
theorem claim_C9 (ds₁ ds₂ : List (List SnapshotDoc)) (s : List SnapshotDoc)
    (i : String) :
    correlationTriggers (ds₁ ++ ds₂) =
      correlationTriggers ds₁ ++ correlationTriggers ds₂ ∧
    ((correlationTriggers (ds₁ ++ ds₂)).filter (fun l => l.id == i)).length =
      ((correlationTriggers ds₁).filter (fun l => l.id == i)).length +
      ((correlationTriggers ds₂).filter (fun l => l.id == i)).length ∧
    correlationTriggers [s] = newLogsOfSnapshot s := by
  have happ : ∀ a b : List (List SnapshotDoc),
      correlationTriggers (a ++ b) = correlationTriggers a ++ correlationTriggers b := by
    intro a b
    induction a with
    | nil => simp [correlationTriggers]
    | cons hd tl ih => simp [correlationTriggers, ih]
  refine ⟨happ ds₁ ds₂, ?_, by simp [correlationTriggers]⟩
  rw [happ]
  simp [List.filter_append]

/-- C9 counterexample: re-delivering the same one-document
server-confirmed snapshot triggers the already-seen event id e1 a second
time, and the second correlation performs a fresh registry call and
appends another log entry back-referencing e1. -/
theorem claim_C9_counterexample :
    (correlationTriggers [[⟨"e1", "X", "Server Down", 0, false, false⟩],
        [⟨"e1", "X", "Server Down", 0, false, false⟩]]).map ExceptionLog.id
      = ["e1", "e1"] ∧
    (correlateExceptionEventDriven 0
        (correlateExceptionEventDriven 0 []
          ⟨Except.ok (some ⟨"1", "X", none, none⟩), Except.ok ⟨true, none, 5⟩⟩
          (docToLog ⟨"e1", "X", "Server Down", 0, false, false⟩)).knownIMEIs
        ⟨Except.ok (some ⟨"1", "X", none, none⟩), Except.ok ⟨true, none, 5⟩⟩
        (docToLog ⟨"e1", "X", "Server Down", 0, false, false⟩)).apiCalls = 1 ∧
    (correlateExceptionEventDriven 0
        (correlateExceptionEventDriven 0 []
          ⟨Except.ok (some ⟨"1", "X", none, none⟩), Except.ok ⟨true, none, 5⟩⟩
          (docToLog ⟨"e1", "X", "Server Down", 0, false, false⟩)).knownIMEIs
        ⟨Except.ok (some ⟨"1", "X", none, none⟩), Except.ok ⟨true, none, 5⟩⟩
        (docToLog ⟨"e1", "X", "Server Down", 0, false, false⟩)).logs.map
      (fun e => e.firebase_exception_id) = [some "e1"] :=
  ⟨by decide, by decide, by decide⟩

end Monitor
